import Mathlib

/-!
Verification of the Marstek UDP device client
(`custom_components/marstek_ha/marstek_api.py` together with the constants in
`custom_components/marstek_ha/const.py`).

The client is embedded shallowly:

* JSON values are the mutual inductive `Json` / `JsonArr` / `JsonObj`
  (objects are association lists in insertion order, matching Python dicts
  built by the source and by `json.loads`).
* `json.dumps(..., separators=(',', ':'))` with the default `ensure_ascii=True`
  is the function `serialize`.
* The network is abstracted by `RecvOutcome`: what `recvfrom` + UTF-8 decode +
  `json.loads` produced for one request (a timeout, an ICMP connection reset,
  any other transport/decoding fault, a JSON parse failure, or a parsed value).
* Python semantics that matter are modelled explicitly: dict/str/list
  membership for the `in` operator (`pyContains`, a `TypeError` on other
  operands being `Except.error`), truthiness (`pyTruthy`), and
  `x.get(k)`/`x[k]`/`x.keys()` attribute errors on non-dict values.
* The socket lifecycle (`connect` / `disconnect`) is a step function on a
  `World` that tracks the client's socket handle, its connected flag and the
  set of currently open sockets.

Fallible Python code that catches its own exceptions is modelled as a total
function returning `Option`/the caught result; an exception that escapes a
modelled function is an `Except.error`.
-/

namespace Marstek

/-! ## JSON values -/

mutual
inductive Json where
  | null
  | jbool (b : Bool)
  | num (n : Int)
  | str (s : String)
  | arr (xs : JsonArr)
  | obj (fs : JsonObj)

inductive JsonArr where
  | nil
  | cons (hd : Json) (tl : JsonArr)

inductive JsonObj where
  | nil
  | cons (k : String) (v : Json) (tl : JsonObj)
end

/-- Build an object from an association list (fields in insertion order). -/
def JsonObj.ofList : List (String × Json) → JsonObj
  | [] => .nil
  | (k, v) :: t => .cons k v (JsonObj.ofList t)

/-- Python `d[k]` / `d.get(k)` on a dict: the value stored under `k`. -/
def JsonObj.find : JsonObj → String → Option Json
  | .nil, _ => none
  | .cons k v t, key => if k == key then some v else t.find key

/-- Python `k in d` for a dict. -/
def JsonObj.hasKey (fs : JsonObj) (k : String) : Bool :=
  (fs.find k).isSome

/-- `list(d.keys())` for a dict. -/
def JsonObj.keys : JsonObj → List String
  | .nil => []
  | .cons k _ t => k :: t.keys

def JsonObj.isNil : JsonObj → Bool
  | .nil => true
  | .cons _ _ _ => false

def JsonArr.isNil : JsonArr → Bool
  | .nil => true
  | .cons _ _ => false

/-- Python `key in xs` for a list: equality of `key` with some element
(only a string element can compare equal to a string). -/
def JsonArr.containsStr : JsonArr → String → Bool
  | .nil, _ => false
  | .cons h t, key =>
      (match h with
       | Json.str s => s == key
       | _ => false) || t.containsStr key

def Json.isObj : Json → Bool
  | .obj _ => true
  | _ => false

/-- Naive substring test on character lists. -/
def listContainsSub (hay pat : List Char) : Bool :=
  match hay with
  | [] => pat.isEmpty
  | _ :: t => pat.isPrefixOf hay || listContainsSub t pat

/-- Python `pat in s` for strings: substring containment. -/
def strContains (s pat : String) : Bool :=
  listContainsSub s.data pat.data

/-- Python truthiness of a JSON-shaped value (`bool(x)`). -/
def pyTruthy : Json → Bool
  | .null => false
  | .jbool b => b
  | .num n => !(n == 0)
  | .str s => !s.isEmpty
  | .arr xs => !xs.isNil
  | .obj fs => !fs.isNil

/-- Python `key in j`: dict-key membership, list membership, substring test;
a `TypeError` (modelled as `Except.error`) on any other operand. -/
def pyContains (key : String) (j : Json) : Except Unit Bool :=
  match j with
  | .obj fs => .ok (fs.hasKey key)
  | .arr xs => .ok (xs.containsStr key)
  | .str s => .ok (strContains s key)
  | _ => .error ()

/-- `response[k]` when `response` is an object, `none` otherwise. -/
def Json.getKey : Json → String → Option Json
  | .obj fs, k => fs.find k
  | _, _ => none

/-! ## Compact JSON serialization

`json.dumps(request, separators=(',', ':'))` with the default
`ensure_ascii=True`: no whitespace is emitted around separators; `"` and `\`
and the usual control shorthands are backslash-escaped; all other characters
below U+0020 or above U+007E become `\uXXXX` escapes (surrogate pairs above
U+FFFF). -/

def HEX_CHARS : List Char :=
  "0123456789abcdef".data

def hexDigit (n : Nat) : Char :=
  HEX_CHARS.getD n '0'

def uHex4 (n : Nat) : String :=
  String.mk [hexDigit (n / 4096 % 16), hexDigit (n / 256 % 16),
             hexDigit (n / 16 % 16), hexDigit (n % 16)]

def escapeChar (c : Char) : String :=
  if c = '"' then "\\\""
  else if c = '\\' then "\\\\"
  else if c = '\n' then "\\n"
  else if c = '\t' then "\\t"
  else if c = '\r' then "\\r"
  else if c = '\x08' then "\\b"
  else if c = '\x0c' then "\\f"
  else if c.toNat < 32 then "\\u" ++ uHex4 c.toNat
  else if c.toNat ≤ 126 then String.singleton c
  else if c.toNat ≤ 65535 then "\\u" ++ uHex4 c.toNat
  else "\\u" ++ uHex4 (55296 + (c.toNat - 65536) / 1024)
       ++ "\\u" ++ uHex4 (56320 + (c.toNat - 65536) % 1024)

def escapeList : List Char → List Char
  | [] => []
  | c :: t => (escapeChar c).data ++ escapeList t

/-- A JSON string literal: quotes around the escaped characters. -/
def serializeString (s : String) : String :=
  "\"" ++ String.mk (escapeList s.data) ++ "\""

mutual
def serialize : Json → String
  | .null => "null"
  | .jbool true => "true"
  | .jbool false => "false"
  | .num n => Int.repr n
  | .str s => serializeString s
  | .arr xs => "[" ++ serializeArr xs ++ "]"
  | .obj fs => "\x7b" ++ serializeObj fs ++ "\x7d"

def serializeArr : JsonArr → String
  | .nil => ""
  | .cons h .nil => serialize h
  | .cons h (JsonArr.cons h2 t) =>
      serialize h ++ "," ++ serializeArr (JsonArr.cons h2 t)

def serializeObj : JsonObj → String
  | .nil => ""
  | .cons k v .nil => serializeString k ++ ":" ++ serialize v
  | .cons k v (JsonObj.cons k2 v2 t) =>
      serializeString k ++ ":" ++ serialize v ++ ","
        ++ serializeObj (JsonObj.cons k2 v2 t)
end

/-- No space character (U+0020) occurs in `s`.  (Other whitespace characters
such as tab or newline are backslash-escaped by the serializer, so a space in
a string atom is the only way whitespace can reach the serialized output.) -/
def strNoSpace (s : String) : Bool :=
  s.data.all (fun c => c != ' ')

mutual
/-- Every string atom (keys included) of the value is free of spaces. -/
def jsonNoSpace : Json → Bool
  | .null => true
  | .jbool _ => true
  | .num _ => true
  | .str s => strNoSpace s
  | .arr xs => jsonArrNoSpace xs
  | .obj fs => jsonObjNoSpace fs

def jsonArrNoSpace : JsonArr → Bool
  | .nil => true
  | .cons h t => jsonNoSpace h && jsonArrNoSpace t

def jsonObjNoSpace : JsonObj → Bool
  | .nil => true
  | .cons k v t => strNoSpace k && jsonNoSpace v && jsonObjNoSpace t
end

/-! ## Command catalogue (`const.py`) -/

def DEFAULT_PORT : Nat := 30000
def DEFAULT_TIMEOUT : Nat := 3
def CMD_GET_DEVICE : String := "Marstek.GetDevice"
def CMD_WIFI_STATUS : String := "Wifi.GetStatus"
def CMD_BLE_STATUS : String := "BLE.GetStatus"
def CMD_BAT_STATUS : String := "Bat.GetStatus"
def CMD_PV_STATUS : String := "PV.GetStatus"
def CMD_ES_STATUS : String := "ES.GetStatus"
def CMD_ES_SET_MODE : String := "ES.SetMode"
def CMD_ES_GET_MODE : String := "ES.GetMode"
def ES_MODE_AUTO : String := "Auto"
def ES_MODE_AI : String := "AI"
def ES_MODE_MANUAL : String := "Manual"
def ES_MODE_PASSIVE : String := "Passive"
def ES_MODES : List String := [ES_MODE_AUTO, ES_MODE_AI, ES_MODE_MANUAL, ES_MODE_PASSIVE]

/-! ## `_send_command` -/

/-- Request construction in `_send_command` (marstek_api.py lines 101-109):
`request = {"id": 1, "method": command, "params": params or {}}`, and if the
params are still falsy (caller passed `None` or an empty dict) they are
replaced by `{"ble_mac": "0"}`.  The id is the literal `1`; nothing in the
client mutates or increments it between calls. -/
def buildRequest (command : String) (params : Option JsonObj) : Json :=
  let p0 : JsonObj :=
    match params with
    | none => .nil
    | some ps => ps
  let p1 : JsonObj :=
    match p0 with
    | .nil => .ofList [("ble_mac", Json.str "0")]
    | .cons k v t => .cons k v t
  Json.obj (.ofList
    [("id", Json.num 1), ("method", Json.str command), ("params", Json.obj p1)])

/-- What one receive attempt produced for `_send_command`:
a `socket.timeout`, a `ConnectionResetError` (ICMP port unreachable), any
other transport or decoding fault, or a decoded datagram — `payload none`
when `json.loads` raised `JSONDecodeError`, `payload (some v)` when it
parsed to the value `v`. -/
inductive RecvOutcome where
  | timeout
  | connReset
  | otherFault
  | payload (p : Option Json)

/-- The response dispatch of `_send_command` (lines 144-152), given the value
`json.loads` returned.  `"result" in response` and `"error" in response` use
Python `in` semantics; a `TypeError` from `in` or from indexing, and the
`AttributeError` raised by the debug call `list(response["result"].keys())`
when the result value is not a dict, are caught by the surrounding generic
`except` handler (line 171), which returns `None`. -/
def send_command_dispatch (response : Json) : Option Json :=
  match pyContains "result" response with
  | .error _ => none
  | .ok true =>
      match response with
      | .obj fs =>
          match fs.find "result" with
          | some (Json.obj r) => some (Json.obj r)
          | _ => none
      | _ => none
  | .ok false =>
      match pyContains "error" response with
      | .error _ => none
      | .ok true => none
      | .ok false => some response

/-- The receive half of `_send_command`: every fault branch (timeout at line
154, connection reset at line 160, JSON decode error at line 166, any other
fault at line 171) returns `None`; a parsed value goes through the dispatch. -/
def send_command_recv (recv : RecvOutcome) : Option Json :=
  match recv with
  | .timeout => none
  | .connReset => none
  | .otherFault => none
  | .payload none => none
  | .payload (some response) => send_command_dispatch response

/-- `_send_command` as a whole: if no socket is open (`hasSock = false`) an
implicit `connect` is attempted, and when that also fails (`connectOk =
false`) the call returns `None` at line 95 without touching the network;
otherwise the outcome is decided by the receive attempt. -/
def send_command (hasSock connectOk : Bool) (recv : RecvOutcome) : Option Json :=
  if hasSock || connectOk then send_command_recv recv else none

/-- A request that actually reaches `sendto`: its method and params. -/
structure SendEvent where
  method : String
  params : Option JsonObj

/-- The datagrams `_send_command` sends: exactly one — unless no socket was
open and the implicit connect failed, in which case nothing is sent. -/
def send_command_trace (hasSock connectOk : Bool) (command : String)
    (params : Option JsonObj) : List SendEvent :=
  if hasSock || connectOk then [⟨command, params⟩] else []

/-! ## `set_es_mode` -/

/-- Default `manual_cfg` (lines 227-234). -/
def manualDefault : Json :=
  Json.obj (.ofList
    [("time_num", Json.num 1), ("start_time", Json.str "08:30"),
     ("end_time", Json.str "20:30"), ("week_set", Json.num 127),
     ("power", Json.num 100), ("enable", Json.num 1)])

/-- `mode_config` construction in `set_es_mode` (lines 220-239):
`{"mode": mode}` plus, for each of the four known modes, the caller-supplied
`<mode>_cfg` or its documented default.  Any other mode string falls through
every branch, leaving only the `mode` key — the function performs no
validation. -/
def set_es_mode_config (mode : String) (config : JsonObj) : JsonObj :=
  if mode == ES_MODE_AUTO then
    .ofList [("mode", Json.str mode),
      ("auto_cfg", (config.find "auto_cfg").getD
        (Json.obj (.ofList [("enable", Json.num 1)])))]
  else if mode == ES_MODE_AI then
    .ofList [("mode", Json.str mode),
      ("ai_cfg", (config.find "ai_cfg").getD
        (Json.obj (.ofList [("enable", Json.num 1)])))]
  else if mode == ES_MODE_MANUAL then
    .ofList [("mode", Json.str mode),
      ("manual_cfg", (config.find "manual_cfg").getD manualDefault)]
  else if mode == ES_MODE_PASSIVE then
    .ofList [("mode", Json.str mode),
      ("passive_cfg", (config.find "passive_cfg").getD
        (Json.obj (.ofList [("power", Json.num 100), ("cd_time", Json.num 300)])))]
  else
    .ofList [("mode", Json.str mode)]

/-- The params `set_es_mode` passes to `_send_command` (lines 241-244):
`{"id": 1, "config": mode_config}`, where a `None` config argument was
replaced by `{}` (line 216). -/
def set_es_mode_params (mode : String) (config : Option JsonObj) : JsonObj :=
  .ofList [("id", Json.num 1),
           ("config", Json.obj (set_es_mode_config mode (config.getD .nil)))]

/-- The datagrams `set_es_mode` sends: it always calls
`_send_command(CMD_ES_SET_MODE, params)` (line 246), whatever the mode. -/
def set_es_mode_trace (mode : String) (config : Option JsonObj)
    (hasSock connectOk : Bool) : List SendEvent :=
  send_command_trace hasSock connectOk CMD_ES_SET_MODE
    (some (set_es_mode_params mode config))

/-- `result.get("set_result") is True` for a dict `result`. -/
def isSetResultTrue (fs : JsonObj) : Bool :=
  match fs.find "set_result" with
  | some (Json.jbool true) => true
  | _ => false

/-- The tail of `set_es_mode` (lines 249-252):
`if result and result.get("set_result") is True: return True` / `return
False`.  `result` is what `_send_command` returned.  A falsy result (`None`,
`{}`, …) yields `False`; a truthy dict is inspected with `.get`; a truthy
non-dict value has no `.get` method, so the `AttributeError` escapes the
(un-guarded) function — modelled as `Except.error`. -/
def set_es_mode_result (result : Option Json) : Except Unit Bool :=
  match result with
  | none => .ok false
  | some j =>
      if pyTruthy j then
        match j with
        | Json.obj fs => .ok (isSetResultTrue fs)
        | _ => .error ()
      else .ok false

/-- One full run of `set_es_mode`: the request it hands to `_send_command`
and the boolean (or escaped exception) it produces from the reply channel. -/
def set_es_mode_run (mode : String) (config : Option JsonObj)
    (hasSock connectOk : Bool) (recv : RecvOutcome) :
    List SendEvent × Except Unit Bool :=
  (set_es_mode_trace mode config hasSock connectOk,
   set_es_mode_result (send_command hasSock connectOk recv))

/-! ## `get_all_data` -/

/-- `get_all_data` (lines 254-275): issues `get_device_info` (no params,
hence the `ble_mac` default), `get_battery_status` (`{"id": 0}`) and
`get_es_mode` (`{"id": 0}`) in that order and collects the three results,
whatever they are, under the fixed keys `device`, `battery`, `es_mode`.
The `oracle` is the environment: what `_send_command` returns for each
issued request. -/
def get_all_data (oracle : SendEvent → Option Json) :
    List SendEvent × List (String × Option Json) :=
  let e1 : SendEvent := ⟨CMD_GET_DEVICE, none⟩
  let e2 : SendEvent := ⟨CMD_BAT_STATUS, some (.ofList [("id", Json.num 0)])⟩
  let e3 : SendEvent := ⟨CMD_ES_GET_MODE, some (.ofList [("id", Json.num 0)])⟩
  ([e1, e2, e3],
   [("device", oracle e1), ("battery", oracle e2), ("es_mode", oracle e3)])

/-! ## Socket lifecycle -/

/-- Observable socket state: the client's handle (`self._sock`), its
`self._connected` flag, the identities of all currently open UDP sockets
owned by this client's process, and a supply of fresh socket identities. -/
structure World where
  sock : Option Nat
  connected : Bool
  openSockets : List Nat
  fresh : Nat

/-- `connect` (lines 44-59), on the path where `socket.socket(...)`
succeeds: a brand-new socket is created unconditionally — there is no check
of `self._sock` — and assigned to `self._sock`, replacing whatever handle
was there without closing it; `self._connected` is set.  (Bind fallback and
the liveness probe affect only the returned boolean, not the handle.) -/
def connectStep (w : World) : World :=
  { sock := some w.fresh,
    connected := true,
    openSockets := w.fresh :: w.openSockets,
    fresh := w.fresh + 1 }

/-- `disconnect` (lines 77-87): when a handle is held, `close()` is attempted
inside a `try` whose `finally` always clears `self._sock` and
`self._connected`, so a raising `close` (modelled by `closeRaises`, caught at
line 83) still leaves the client disconnected; with no handle the body is
skipped entirely. -/
def disconnectStep (w : World) (closeRaises : Bool) : World :=
  match w.sock with
  | none => w
  | some s =>
      { w with
          sock := none
          connected := false
          openSockets := if closeRaises then w.openSockets else w.openSockets.erase s }

/-- The receive outcomes on which `_send_command` does not produce a parsed
value: every constructor except a successfully parsed payload. -/
def recvIsFault : RecvOutcome → Bool
  | .payload (some _) => false
  | _ => true

/-- Receive outcomes whose parsed value, if any, is a JSON object. -/
def recvObjSafe : RecvOutcome → Bool
  | .payload (some j) => j.isObj
  | _ => true

/-! ## Helper lemmas: the compact serializer emits no whitespace of its own -/

theorem data_mk (l : List Char) : (String.mk l).data = l := rfl

theorem getD_prop {α : Type} (P : α → Prop) (l : List α) (d : α)
    (hl : ∀ a ∈ l, P a) (hd : P d) : ∀ n, P (l.getD n d) := by
  intro n
  induction l generalizing n with
  | nil => simpa [List.getD] using hd
  | cons h t ih =>
      cases n with
      | zero => simpa using hl h (by simp)
      | succ m =>
          simp only [List.getD_cons_succ]
          exact ih (fun a ha => hl a (List.mem_cons_of_mem _ ha)) m

theorem hexDigit_not_ws (n : Nat) : (hexDigit n).isWhitespace = false := by
  have := getD_prop (fun c => c.isWhitespace = false) HEX_CHARS '0'
    (by decide) (by decide) n
  simpa [hexDigit] using this

theorem uHex4_noWS (n : Nat) :
    ((uHex4 n).data.all (fun c => !c.isWhitespace)) = true := by
  simp [uHex4, data_mk, hexDigit_not_ws]

theorem escapeChar_noWS (c : Char) (hc : c ≠ ' ') :
    ((escapeChar c).data.all (fun d => !d.isWhitespace)) = true := by
  unfold escapeChar
  split
  · decide
  split
  · decide
  split
  · decide
  split
  · decide
  split
  · decide
  split
  · decide
  split
  · decide
  split
  · simp [String.data_append, List.all_append, uHex4_noWS]
  rename_i h32
  split
  · rename_i hle
    have ht : c ≠ '\t' := by rintro rfl; exact h32 (by decide)
    have hr : c ≠ '\r' := by rintro rfl; exact h32 (by decide)
    have hn : c ≠ '\n' := by rintro rfl; exact h32 (by decide)
    simp [String.singleton, data_mk, Char.isWhitespace, hc, ht, hr, hn]
  split
  · simp [String.data_append, List.all_append, uHex4_noWS]
  · simp [String.data_append, List.all_append, uHex4_noWS]

theorem escapeList_noWS (l : List Char) (h : l.all (fun c => c != ' ') = true) :
    ((escapeList l).all (fun d => !d.isWhitespace)) = true := by
  induction l with
  | nil => rfl
  | cons c t ih =>
      simp only [List.all_cons, Bool.and_eq_true] at h
      simp only [escapeList, List.all_append]
      rw [escapeChar_noWS c (by simpa using h.1), ih h.2]
      rfl

theorem serializeString_noWS (s : String) (h : strNoSpace s = true) :
    ((serializeString s).data.all (fun c => !c.isWhitespace)) = true := by
  unfold serializeString
  simp only [String.data_append, List.all_append, data_mk]
  rw [escapeList_noWS s.data h]
  decide

theorem digitChar_not_ws (n : Nat) : (Nat.digitChar n).isWhitespace = false := by
  rcases Nat.lt_or_ge n 16 with h | h
  · interval_cases n <;> decide
  · have h0 : ¬ n = 0 := by omega
    have h1 : ¬ n = 1 := by omega
    have h2 : ¬ n = 2 := by omega
    have h3 : ¬ n = 3 := by omega
    have h4 : ¬ n = 4 := by omega
    have h5 : ¬ n = 5 := by omega
    have h6 : ¬ n = 6 := by omega
    have h7 : ¬ n = 7 := by omega
    have h8 : ¬ n = 8 := by omega
    have h9 : ¬ n = 9 := by omega
    have hA : ¬ n = 10 := by omega
    have hB : ¬ n = 11 := by omega
    have hC : ¬ n = 12 := by omega
    have hD : ¬ n = 13 := by omega
    have hE : ¬ n = 14 := by omega
    have hF : ¬ n = 15 := by omega
    unfold Nat.digitChar
    rw [if_neg h0, if_neg h1, if_neg h2, if_neg h3, if_neg h4, if_neg h5,
        if_neg h6, if_neg h7, if_neg h8, if_neg h9, if_neg hA, if_neg hB,
        if_neg hC, if_neg hD, if_neg hE, if_neg hF]
    decide

theorem toDigitsCore_noWS (b : Nat) :
    ∀ (fuel n : Nat) (ds : List Char),
      ds.all (fun c => !c.isWhitespace) = true →
      ((Nat.toDigitsCore b fuel n ds).all (fun c => !c.isWhitespace)) = true := by
  intro fuel
  induction fuel with
  | zero => intro n ds h; simpa [Nat.toDigitsCore] using h
  | succ f ih =>
      intro n ds h
      unfold Nat.toDigitsCore
      dsimp only
      by_cases hnb : n / b = 0
      · rw [if_pos hnb]
        simp [digitChar_not_ws, h]
      · rw [if_neg hnb]
        exact ih _ _ (by simp [digitChar_not_ws, h])

theorem natRepr_noWS (m : Nat) :
    ((Nat.repr m).data.all (fun c => !c.isWhitespace)) = true := by
  unfold Nat.repr Nat.toDigits
  have := toDigitsCore_noWS 10 (m + 1) m [] rfl
  simpa [List.asString] using this

theorem intRepr_noWS (n : Int) :
    ((Int.repr n).data.all (fun c => !c.isWhitespace)) = true := by
  cases n with
  | ofNat m => simpa [Int.repr] using natRepr_noWS m
  | negSucc m =>
      simp [Int.repr, String.data_append, List.all_append, natRepr_noWS]

mutual
theorem serialize_noWS (j : Json) (h : jsonNoSpace j = true) :
    ((serialize j).data.all (fun c => !c.isWhitespace)) = true := by
  match j with
  | .null => decide
  | .jbool true => decide
  | .jbool false => decide
  | .num n => simpa [serialize] using intRepr_noWS n
  | .str s => simpa [serialize] using serializeString_noWS s (by simpa [jsonNoSpace] using h)
  | .arr xs =>
      have h' : jsonArrNoSpace xs = true := by simpa [jsonNoSpace] using h
      have := serializeArr_noWS xs h'
      simp only [serialize, String.data_append, List.all_append]
      rw [this]
      decide
  | .obj fs =>
      have h' : jsonObjNoSpace fs = true := by simpa [jsonNoSpace] using h
      have := serializeObj_noWS fs h'
      simp only [serialize, String.data_append, List.all_append]
      rw [this]
      decide

theorem serializeArr_noWS (xs : JsonArr) (h : jsonArrNoSpace xs = true) :
    ((serializeArr xs).data.all (fun c => !c.isWhitespace)) = true := by
  match xs with
  | .nil => decide
  | .cons hd .nil =>
      have h' : jsonNoSpace hd = true := by
        simp only [jsonArrNoSpace, jsonArrNoSpace, Bool.and_eq_true] at h
        exact h.1
      simpa [serializeArr] using serialize_noWS hd h'
  | .cons hd (JsonArr.cons h2 t) =>
      simp only [jsonArrNoSpace, Bool.and_eq_true] at h
      have e1 := serialize_noWS hd h.1
      have e2 := serializeArr_noWS (JsonArr.cons h2 t)
        (by simp [jsonArrNoSpace, h.2.1, h.2.2])
      simp only [serializeArr, String.data_append, List.all_append]
      rw [e1, e2]
      decide

theorem serializeObj_noWS (fs : JsonObj) (h : jsonObjNoSpace fs = true) :
    ((serializeObj fs).data.all (fun c => !c.isWhitespace)) = true := by
  match fs with
  | .nil => decide
  | .cons k v .nil =>
      simp only [jsonObjNoSpace, Bool.and_eq_true] at h
      have e1 := serializeString_noWS k h.1.1
      have e2 := serialize_noWS v h.1.2
      simp only [serializeObj, String.data_append, List.all_append]
      rw [e1, e2]
      decide
  | .cons k v (JsonObj.cons k2 v2 t) =>
      simp only [jsonObjNoSpace, Bool.and_eq_true] at h
      have e1 := serializeString_noWS k h.1.1
      have e2 := serialize_noWS v h.1.2
      have e3 := serializeObj_noWS (JsonObj.cons k2 v2 t)
        (by simp [jsonObjNoSpace, h.2.1.1, h.2.1.2, h.2.2])
      simp only [serializeObj, String.data_append, List.all_append]
      rw [e1, e2, e3]
      decide
end

/-! ## Helper lemmas: response dispatch and mode-set result -/

theorem isSetResultTrue_iff (fs : JsonObj) :
    isSetResultTrue fs = true ↔ fs.find "set_result" = some (Json.jbool true) := by
  unfold isSetResultTrue
  cases h : fs.find "set_result" with
  | none => simp
  | some v =>
      cases v with
      | jbool b => cases b <;> simp
      | null => simp
      | num n => simp
      | str s => simp
      | arr xs => simp
      | obj o => simp

theorem set_es_mode_result_obj (r : JsonObj) :
    set_es_mode_result (some (Json.obj r)) = .ok (isSetResultTrue r) := by
  cases r with
  | nil => rfl
  | cons k v t => rfl

theorem dispatch_obj_shape (fs : JsonObj) :
    send_command_dispatch (Json.obj fs) = none ∨
    ∃ r, send_command_dispatch (Json.obj fs) = some (Json.obj r) := by
  cases hk : fs.hasKey "result" with
  | true =>
      cases hf : fs.find "result" with
      | none => left; simp [send_command_dispatch, pyContains, hk, hf]
      | some v =>
          cases v with
          | obj r => right; exact ⟨r, by simp [send_command_dispatch, pyContains, hk, hf]⟩
          | null => left; simp [send_command_dispatch, pyContains, hk, hf]
          | jbool b => left; simp [send_command_dispatch, pyContains, hk, hf]
          | num n => left; simp [send_command_dispatch, pyContains, hk, hf]
          | str s => left; simp [send_command_dispatch, pyContains, hk, hf]
          | arr xs => left; simp [send_command_dispatch, pyContains, hk, hf]
  | false =>
      cases he : fs.hasKey "error" with
      | true => left; simp [send_command_dispatch, pyContains, hk, he]
      | false => right; exact ⟨fs, by simp [send_command_dispatch, pyContains, hk, he]⟩

/-! ## The claims -/

/-- Claim C1: for every `_send_command` call whose reply datagram parses as a
JSON object, the dispatch returns exactly the inner `result` object when the
`result` key holds an object; returns the no-result marker when an `error`
key is present without a `result` key; and returns the whole parsed object
unchanged when neither key is present. -/
theorem send_command_reply_dispatch (fs : JsonObj) :
    (∀ r : JsonObj, fs.find "result" = some (Json.obj r) →
        send_command_recv (.payload (some (Json.obj fs))) = some (Json.obj r)) ∧
    (fs.hasKey "result" = false → fs.hasKey "error" = true →
        send_command_recv (.payload (some (Json.obj fs))) = none) ∧
    (fs.hasKey "result" = false → fs.hasKey "error" = false →
        send_command_recv (.payload (some (Json.obj fs))) = some (Json.obj fs)) := by
  refine ⟨?_, ?_, ?_⟩
  · intro r hr
    have hk : fs.hasKey "result" = true := by simp [JsonObj.hasKey, hr]
    simp [send_command_recv, send_command_dispatch, pyContains, hk, hr]
  · intro h1 h2
    simp [send_command_recv, send_command_dispatch, pyContains, h1, h2]
  · intro h1 h2
    simp [send_command_recv, send_command_dispatch, pyContains, h1, h2]

/-- Witness for C1: concrete replies exercising all three dispatch shapes. -/
theorem send_command_reply_dispatch_witness :
    (JsonObj.ofList [("result", Json.obj (.ofList [("soc", Json.num 50)]))]).find "result"
        = some (Json.obj (.ofList [("soc", Json.num 50)])) ∧
    send_command_recv (.payload (some (Json.obj
        (.ofList [("result", Json.obj (.ofList [("soc", Json.num 50)]))]))))
        = some (Json.obj (.ofList [("soc", Json.num 50)])) ∧
    send_command_recv (.payload (some (Json.obj (.ofList [("error", Json.str "boom")]))))
        = none ∧
    send_command_recv (.payload (some (Json.obj (.ofList [("status", Json.num 1)]))))
        = some (Json.obj (.ofList [("status", Json.num 1)])) :=
  ⟨rfl,
   (send_command_reply_dispatch _).1 _ rfl,
   (send_command_reply_dispatch _).2.1 rfl rfl,
   (send_command_reply_dispatch _).2.2 rfl rfl⟩

/-- Claim C2: `_send_command` never propagates a raised fault to its caller:
each fault outcome — receive timeout, transport-level rejection (ICMP port
unreachable), malformed/non-JSON payload, any other transport or decoding
fault — yields the no-result marker, as does a failed implicit connect.
(That `send_command` is a total function over all these outcomes is the
embedding of "never raises".) -/
theorem send_command_no_fault_propagation (hasSock connectOk : Bool) (recv : RecvOutcome) :
    (recvIsFault recv = true → send_command hasSock connectOk recv = none) ∧
    send_command false false recv = none := by
  constructor
  · intro h
    cases recv with
    | payload p =>
        cases p with
        | none => cases hasSock <;> cases connectOk <;> rfl
        | some j => simp [recvIsFault] at h
    | timeout => cases hasSock <;> cases connectOk <;> rfl
    | connReset => cases hasSock <;> cases connectOk <;> rfl
    | otherFault => cases hasSock <;> cases connectOk <;> rfl
  · rfl

/-- Witness for C2: a timeout on a connected client returns the no-result
marker. -/
theorem send_command_no_fault_propagation_witness :
    recvIsFault RecvOutcome.timeout = true ∧
    send_command true true RecvOutcome.timeout = none :=
  ⟨rfl, (send_command_no_fault_propagation true true RecvOutcome.timeout).1 rfl⟩

/-- Counterexample to claim C3: for the unknown mode string "Boost" (not one
of the four known variants), `set_es_mode` on a connected client still sends
an `ES.SetMode` request — the claim asserts no request is sent. -/
theorem set_es_mode_unknown_mode_counterexample :
    ("Boost" ∈ ES_MODES → False) ∧
    set_es_mode_trace "Boost" none true true =
      [⟨CMD_ES_SET_MODE, some (.ofList [("id", Json.num 1),
        ("config", Json.obj (.ofList [("mode", Json.str "Boost")]))])⟩] :=
  ⟨by decide, rfl⟩

/-- Claim C3 (amended): `set_es_mode` performs no mode validation: for every
mode string that is not one of the four known variants it still sends an
`ES.SetMode` request (whenever a socket is available), whose config carries
only the `mode` key and no `*_cfg` entry. -/
theorem set_es_mode_unknown_mode_sends (mode : String) (config : Option JsonObj)
    (hasSock connectOk : Bool)
    (hmode : mode ∉ ES_MODES) (hsock : (hasSock || connectOk) = true) :
    set_es_mode_trace mode config hasSock connectOk =
      [⟨CMD_ES_SET_MODE, some (.ofList [("id", Json.num 1),
        ("config", Json.obj (.ofList [("mode", Json.str mode)]))])⟩] := by
  simp only [ES_MODES, ES_MODE_AUTO, ES_MODE_AI, ES_MODE_MANUAL, ES_MODE_PASSIVE,
    List.mem_cons, List.not_mem_nil, or_false, not_or] at hmode
  obtain ⟨h1, h2, h3, h4⟩ := hmode
  have e1 : (mode == ES_MODE_AUTO) = false := by
    simp [ES_MODE_AUTO]; exact h1
  have e2 : (mode == ES_MODE_AI) = false := by
    simp [ES_MODE_AI]; exact h2
  have e3 : (mode == ES_MODE_MANUAL) = false := by
    simp [ES_MODE_MANUAL]; exact h3
  have e4 : (mode == ES_MODE_PASSIVE) = false := by
    simp [ES_MODE_PASSIVE]; exact h4
  simp [set_es_mode_trace, send_command_trace, set_es_mode_params,
    set_es_mode_config, e1, e2, e3, e4, hsock, JsonObj.ofList]

/-- Witness for C3 (amended) at the unknown mode string "Turbo". -/
theorem set_es_mode_unknown_mode_sends_witness :
    ("Turbo" ∉ ES_MODES) ∧ ((true || false) = true) ∧
    set_es_mode_trace "Turbo" none true false =
      [⟨CMD_ES_SET_MODE, some (.ofList [("id", Json.num 1),
        ("config", Json.obj (.ofList [("mode", Json.str "Turbo")]))])⟩] :=
  ⟨by decide, rfl, set_es_mode_unknown_mode_sends "Turbo" none true false (by decide) rfl⟩

/-- Counterexample to claim C4: starting from a client already holding open
socket 0 (the only open socket), `connect` does not reuse it: the handle
switches to a freshly created socket and two sockets are now open — the
at-most-one-open-socket invariant is not preserved. -/
theorem connect_reuse_counterexample :
    (connectStep ⟨some 0, true, [0], 1⟩).sock ≠ some 0 ∧
    (connectStep ⟨some 0, true, [0], 1⟩).openSockets = [1, 0] ∧
    ¬ (connectStep ⟨some 0, true, [0], 1⟩).openSockets.length ≤ 1 :=
  ⟨by decide, rfl, by decide⟩

/-- Claim C4 (amended): `connect` is not idempotent in effect: whenever
socket creation succeeds it creates a brand-new socket and overwrites the
held handle with it, and every previously open socket — including a
currently held one — remains open (nothing is closed or reused), so calling
`connect` on an already-connected client leaks the old socket. -/
theorem connect_creates_fresh_socket (w : World) :
    (connectStep w).sock = some w.fresh ∧
    (connectStep w).openSockets = w.fresh :: w.openSockets ∧
    (connectStep w).connected = true ∧
    (∀ s, s ∈ w.openSockets → s ∈ (connectStep w).openSockets) :=
  ⟨rfl, rfl, rfl, fun _ hs => List.mem_cons_of_mem _ hs⟩

/-- Witness for C4 (amended) on a client holding socket 7. -/
theorem connect_creates_fresh_socket_witness :
    (connectStep ⟨some 7, true, [7], 8⟩).sock = some 8 ∧
    7 ∈ (connectStep ⟨some 7, true, [7], 8⟩).openSockets :=
  ⟨(connect_creates_fresh_socket ⟨some 7, true, [7], 8⟩).1,
   (connect_creates_fresh_socket ⟨some 7, true, [7], 8⟩).2.2.2 7 (by decide)⟩

/-- Counterexample to claim C5: a device reply parsing as the bare JSON
string "unexpected" is passed through by `_send_command` (it has neither a
`result` nor an `error` key); `set_es_mode` then calls `.get("set_result")`
on that truthy non-dict value and the `AttributeError` escapes the call —
it raises instead of returning a boolean. -/
theorem set_es_mode_raises_counterexample :
    (set_es_mode_run "Auto" none true true
      (.payload (some (Json.str "unexpected")))).2 = .error () := rfl

/-- Claim C5 (amended): provided every parsed reply is a JSON object (faults
of any kind still yield no-result), `set_es_mode` returns a boolean and never
raises; the boolean is `true` iff the value `_send_command` returned is an
object whose `set_result` member is exactly the boolean `true` — whether that
object was the inner `result` object or a whole-object passthrough; a
missing `set_result`, `false`, or any non-boolean value yields `false`. -/
theorem set_es_mode_result_spec (mode : String) (config : Option JsonObj)
    (hasSock connectOk : Bool) (recv : RecvOutcome)
    (hsafe : recvObjSafe recv = true) :
    ∃ b : Bool,
      (set_es_mode_run mode config hasSock connectOk recv).2 = .ok b ∧
      (b = true ↔ ∃ fs : JsonObj,
        send_command hasSock connectOk recv = some (Json.obj fs) ∧
        fs.find "set_result" = some (Json.jbool true)) := by
  have hshape : send_command hasSock connectOk recv = none ∨
      ∃ r, send_command hasSock connectOk recv = some (Json.obj r) := by
    unfold send_command
    cases hbc : (hasSock || connectOk) with
    | false => left; rfl
    | true =>
        simp only [if_true]
        cases recv with
        | timeout => left; rfl
        | connReset => left; rfl
        | otherFault => left; rfl
        | payload p =>
            cases p with
            | none => left; rfl
            | some j =>
                cases j with
                | obj fs => exact dispatch_obj_shape fs
                | null => simp [recvObjSafe, Json.isObj] at hsafe
                | jbool b => simp [recvObjSafe, Json.isObj] at hsafe
                | num n => simp [recvObjSafe, Json.isObj] at hsafe
                | str s => simp [recvObjSafe, Json.isObj] at hsafe
                | arr xs => simp [recvObjSafe, Json.isObj] at hsafe
  rcases hshape with hnone | ⟨r, hr⟩
  · refine ⟨false, ?_, ?_⟩
    · simp [set_es_mode_run, hnone, set_es_mode_result]
    · simp [hnone]
  · refine ⟨isSetResultTrue r, ?_, ?_⟩
    · simp [set_es_mode_run, hr, set_es_mode_result_obj]
    · rw [hr]
      constructor
      · intro hb
        exact ⟨r, rfl, (isSetResultTrue_iff r).mp hb⟩
      · rintro ⟨fs, hfs, hfind⟩
        have hobj : Json.obj r = Json.obj fs := by injection hfs
        have hrfs : r = fs := by injection hobj
        subst hrfs
        exact (isSetResultTrue_iff r).mpr hfind

/-- Witness for C5 (amended): a reply whose `result.set_result` is the
boolean `true` makes `set_es_mode` return `true`. -/
theorem set_es_mode_result_spec_witness :
    recvObjSafe (.payload (some (Json.obj (.ofList
      [("result", Json.obj (.ofList [("set_result", Json.jbool true)]))])))) = true ∧
    (∃ b : Bool,
      (set_es_mode_run "Auto" none true true (.payload (some (Json.obj (.ofList
        [("result", Json.obj (.ofList [("set_result", Json.jbool true)]))]))))).2 = .ok b ∧
      (b = true ↔ ∃ fs : JsonObj,
        send_command true true (.payload (some (Json.obj (.ofList
          [("result", Json.obj (.ofList [("set_result", Json.jbool true)]))]))))
          = some (Json.obj fs) ∧
        fs.find "set_result" = some (Json.jbool true))) :=
  ⟨rfl, set_es_mode_result_spec "Auto" none true true _ rfl⟩

/-- Claim C6: every request `_send_command` builds carries the literal id 1
(`buildRequest` is stateless — no call counter exists in the client, so the
id never increments), the given method string, and params equal to the
`ble_mac` default exactly when the caller's params are omitted/None or the
empty object and exactly the caller's params otherwise; serializing the
request with the compact separators emits no whitespace (spaces can only
come from string contents supplied by the caller — escaping introduces
none). -/
theorem buildRequest_spec (command : String) (params : Option JsonObj) :
    (buildRequest command params).getKey "id" = some (Json.num 1) ∧
    (buildRequest command params).getKey "method" = some (Json.str command) ∧
    ((params = none ∨ params = some JsonObj.nil) →
      (buildRequest command params).getKey "params"
        = some (Json.obj (.ofList [("ble_mac", Json.str "0")]))) ∧
    (∀ k v t, params = some (JsonObj.cons k v t) →
      (buildRequest command params).getKey "params"
        = some (Json.obj (JsonObj.cons k v t))) ∧
    (jsonNoSpace (buildRequest command params) = true →
      ((serialize (buildRequest command params)).data.all
        (fun c => !c.isWhitespace)) = true) := by
  refine ⟨?_, ?_, ?_, ?_, ?_⟩
  · cases params with
    | none => rfl
    | some ps => cases ps <;> rfl
  · cases params with
    | none => rfl
    | some ps => cases ps <;> rfl
  · rintro (rfl | rfl) <;> rfl
  · rintro k v t rfl
    rfl
  · intro h
    exact serialize_noWS _ h

/-- Witness for C6: the empty-params default, and the compact serialization
of the probe request from the protocol example. -/
theorem buildRequest_spec_witness :
    ((some JsonObj.nil : Option JsonObj) = none ∨
      (some JsonObj.nil : Option JsonObj) = some JsonObj.nil) ∧
    (buildRequest CMD_GET_DEVICE (some JsonObj.nil)).getKey "params"
      = some (Json.obj (.ofList [("ble_mac", Json.str "0")])) ∧
    jsonNoSpace (buildRequest CMD_GET_DEVICE none) = true ∧
    ((serialize (buildRequest CMD_GET_DEVICE none)).data.all
      (fun c => !c.isWhitespace)) = true ∧
    serialize (buildRequest CMD_GET_DEVICE none) =
      "\x7b\"id\":1,\"method\":\"Marstek.GetDevice\",\"params\":\x7b\"ble_mac\":\"0\"\x7d\x7d" :=
  ⟨Or.inr rfl,
   (buildRequest_spec CMD_GET_DEVICE (some JsonObj.nil)).2.2.1 (Or.inr rfl),
   by decide,
   (buildRequest_spec CMD_GET_DEVICE none).2.2.2.2 (by decide),
   rfl⟩

/-- Claim C7: `get_all_data` issues `Marstek.GetDevice`, `Bat.GetStatus`,
`ES.GetMode` in that order and always returns a mapping with exactly the
three keys `device`, `battery`, `es_mode` in that order (it is a total
function, embedding "never raises"); when every underlying command fails,
all three values are the no-result marker. -/
theorem get_all_data_spec (oracle : SendEvent → Option Json) :
    ((get_all_data oracle).2.map Prod.fst = ["device", "battery", "es_mode"]) ∧
    ((get_all_data oracle).1.map SendEvent.method
        = [CMD_GET_DEVICE, CMD_BAT_STATUS, CMD_ES_GET_MODE]) ∧
    ((∀ e, oracle e = none) →
      (get_all_data oracle).2
        = [("device", none), ("battery", none), ("es_mode", none)]) := by
  refine ⟨rfl, rfl, ?_⟩
  intro h
  simp [get_all_data, h]

/-- Witness for C7: the all-failures environment. -/
theorem get_all_data_spec_witness :
    (∀ e : SendEvent, (fun _ : SendEvent => (none : Option Json)) e = none) ∧
    (get_all_data (fun _ => none)).2
      = [("device", none), ("battery", none), ("es_mode", none)] :=
  ⟨fun _ => rfl, (get_all_data_spec (fun _ => none)).2.2 (fun _ => rfl)⟩

/-- Claim C8: `set_es_mode("Manual")` with no caller-supplied override builds
request params whose config holds exactly the documented default
`manual_cfg` (`time_num=1`, `start_time="08:30"`, `end_time="20:30"`,
`week_set=127`, `power=100`, `enable=1`), and the config's keys are exactly
`mode` and `manual_cfg` — no other `*_cfg` entry. -/
theorem set_es_mode_manual_default :
    set_es_mode_params ES_MODE_MANUAL none =
      .ofList [("id", Json.num 1), ("config", Json.obj (.ofList
        [("mode", Json.str "Manual"),
         ("manual_cfg", Json.obj (.ofList
           [("time_num", Json.num 1), ("start_time", Json.str "08:30"),
            ("end_time", Json.str "20:30"), ("week_set", Json.num 127),
            ("power", Json.num 100), ("enable", Json.num 1)]))]))] ∧
    (set_es_mode_config ES_MODE_MANUAL JsonObj.nil).keys = ["mode", "manual_cfg"] :=
  ⟨rfl, rfl⟩

/-- Claim C9: `disconnect` is safe to call any number of times and on a
never-connected client: it is total even when the socket close itself raises
(embedding "never raises"), it always leaves the client disconnected —
handle cleared, connected flag down — on every state satisfying the
invariant that a connected client holds a handle (true of all reachable
states, a never-connected client included), and a further `disconnect`
changes nothing. -/
theorem disconnect_safe (w : World) (closeRaises closeRaises2 : Bool)
    (hinv : w.sock = none → w.connected = false) :
    (disconnectStep w closeRaises).sock = none ∧
    (disconnectStep w closeRaises).connected = false ∧
    disconnectStep (disconnectStep w closeRaises) closeRaises2
      = disconnectStep w closeRaises := by
  cases hs : w.sock with
  | none => refine ⟨?_, ?_, ?_⟩ <;> simp [disconnectStep, hs, hinv hs]
  | some s => refine ⟨?_, ?_, ?_⟩ <;> simp [disconnectStep, hs]

/-- Witness for C9: disconnecting a connected client whose close raises. -/
theorem disconnect_safe_witness :
    ((⟨some 5, true, [5], 6⟩ : World).sock = none →
      (⟨some 5, true, [5], 6⟩ : World).connected = false) ∧
    (disconnectStep ⟨some 5, true, [5], 6⟩ true).sock = none ∧
    (disconnectStep ⟨some 5, true, [5], 6⟩ true).connected = false :=
  ⟨fun h => by simp at h,
   (disconnect_safe ⟨some 5, true, [5], 6⟩ true true (fun h => by simp at h)).1,
   (disconnect_safe ⟨some 5, true, [5], 6⟩ true true (fun h => by simp at h)).2.1⟩

/-- Claim C10: when the parsed reply object carries a `result` key whose
value is not itself an object (number, string, array, boolean or null),
`_send_command` returns the no-result marker rather than that value: the
success-path return applies only to object results.  (In the source the
debug call `list(response["result"].keys())` raises `AttributeError` on a
non-dict result and the generic handler at line 171 returns `None`.) -/
theorem send_command_nonobject_result (fs : JsonObj) (v : Json)
    (hfind : fs.find "result" = some v) (hv : v.isObj = false) :
    send_command_recv (.payload (some (Json.obj fs))) = none := by
  have hk : fs.hasKey "result" = true := by simp [JsonObj.hasKey, hfind]
  cases v with
  | obj r => simp [Json.isObj] at hv
  | null => simp [send_command_recv, send_command_dispatch, pyContains, hk, hfind]
  | jbool b => simp [send_command_recv, send_command_dispatch, pyContains, hk, hfind]
  | num n => simp [send_command_recv, send_command_dispatch, pyContains, hk, hfind]
  | str s => simp [send_command_recv, send_command_dispatch, pyContains, hk, hfind]
  | arr xs => simp [send_command_recv, send_command_dispatch, pyContains, hk, hfind]

/-- Witness for C10: a reply whose `result` is the number 5 yields the
no-result marker. -/
theorem send_command_nonobject_result_witness :
    (JsonObj.ofList [("result", Json.num 5)]).find "result" = some (Json.num 5) ∧
    (Json.num 5).isObj = false ∧
    send_command_recv (.payload (some (Json.obj
      (.ofList [("result", Json.num 5)])))) = none :=
  ⟨rfl, rfl, send_command_nonobject_result _ (Json.num 5) rfl rfl⟩

end Marstek
